import Mathlib

/-!
Verification of the native-amm-program core against its specification.

The Rust sources under src are shallowly embedded: machine integers
become Nat with explicit bounds where they matter, fallible functions
return Except ProgramError, 32-byte public keys become functions from
Fin 32 to byte values, and every stateful instruction processor becomes
a pure function from its loaded inputs to the effects it would issue.
-/

/-- A 32-byte public key, as in the Rust type Pubkey = [u8; 32]. -/
abbrev Pubkey := Fin 32 → Fin 256

/-- The all-zero public key. -/
def pkZero : Pubkey := fun _ => 0

/-- A sample nonzero public key: first byte 1, rest 0. -/
def pkA : Pubkey := fun i => if i = (0 : Fin 32) then 1 else 0

/-- A second sample nonzero public key: first byte 2, rest 0. -/
def pkB : Pubkey := fun i => if i = (0 : Fin 32) then 2 else 0

/-- The subset of pinocchio ProgramError values this program uses. -/
inductive ProgramError where
  | NotEnoughAccountKeys
  | InvalidAccountData
  | InvalidInstructionData
  | InvalidArgument
  | Custom (code : Nat)
deriving DecidableEq

deriving instance DecidableEq for Except

/-- Errors of the external constant-product curve crate. -/
inductive CurveError where
  | ZeroBalance
  | Overflow
deriving DecidableEq

/-- The AmmState discriminants from src/state.rs: Uninitialized = 0,
Initialized = 1, Disabled = 2, WithdrawOnly = 3. -/
def AmmState.Uninitialized : Nat := 0

/-- AmmState discriminant Initialized = 1. -/
def AmmState.Initialized : Nat := 1

/-- AmmState discriminant Disabled = 2. -/
def AmmState.Disabled : Nat := 2

/-- AmmState discriminant WithdrawOnly = 3. -/
def AmmState.WithdrawOnly : Nat := 3

/-- The pool configuration record from src/state.rs. The u8 state, the
u64 seed (stored as 8 little-endian bytes), the u16 fee (stored as 2
little-endian bytes) and the bump byte are carried as their Nat values;
the three 32-byte identities are carried as Pubkey. -/
structure Config where
  state : Nat
  seed : Nat
  authority : Pubkey
  mint_x : Pubkey
  mint_y : Pubkey
  fee : Nat
  config_bump : Nat
deriving DecidableEq

/-- Config::LEN: 1 + 8 + 32 * 3 + 2 + 1 = 108 bytes. -/
def Config.LEN : Nat := 1 + 8 + 32 * 3 + 2 + 1

/-- Config::set_state from src/state.rs lines 169-177: rejects with
InvalidAccountData any value greater than or equal to
AmmState::WithdrawOnly = 3, otherwise writes the state byte. -/
def Config.set_state (c : Config) (state : Nat) : Except ProgramError Config :=
  if AmmState.WithdrawOnly ≤ state then .error .InvalidAccountData
  else .ok { c with state := state }

/-- Config::set_seed from src/state.rs. -/
def Config.set_seed (c : Config) (seed : Nat) : Config :=
  { c with seed := seed }

/-- Config::set_authority from src/state.rs. -/
def Config.set_authority (c : Config) (authority : Pubkey) : Config :=
  { c with authority := authority }

/-- Config::set_mint_x from src/state.rs. -/
def Config.set_mint_x (c : Config) (mint_x : Pubkey) : Config :=
  { c with mint_x := mint_x }

/-- Config::set_mint_y from src/state.rs. -/
def Config.set_mint_y (c : Config) (mint_y : Pubkey) : Config :=
  { c with mint_y := mint_y }

/-- Config::set_fee from src/state.rs lines 200-208: rejects with
InvalidAccountData any fee greater than or equal to 10000, otherwise
writes the two fee bytes. -/
def Config.set_fee (c : Config) (fee : Nat) : Except ProgramError Config :=
  if 10000 ≤ fee then .error .InvalidAccountData
  else .ok { c with fee := fee }

/-- Config::set_config_bump from src/state.rs. -/
def Config.set_config_bump (c : Config) (config_bump : Nat) : Config :=
  { c with config_bump := config_bump }

/-- Config::set_inner from src/state.rs lines 216-235: the one-time
write performed by the Initialize instruction; forces the state to
Initialized and runs each field setter in order, propagating the
validation errors of set_state and set_fee. -/
def Config.set_inner (c : Config) (seed : Nat) (authority mint_x mint_y : Pubkey)
    (fee : Nat) (config_bump : Nat) : Except ProgramError Config := do
  let c ← c.set_state AmmState.Initialized
  let c := c.set_seed seed
  let c := c.set_authority authority
  let c := c.set_mint_x mint_x
  let c := c.set_mint_y mint_y
  let c ← c.set_fee fee
  .ok (c.set_config_bump config_bump)

/-- One little-endian u64 chunk of the 32 authority bytes, as read by
Config::has_authority through its [u64; 4] reinterpretation of the
byte array: chunk j collects bytes 8 * j .. 8 * j + 7. -/
def Config.authorityChunk (c : Config) (j : Fin 4) : Nat :=
  Finset.univ.sum fun k : Fin 8 =>
    (c.authority ⟨8 * j.val + k.val, by omega⟩).val * 256 ^ k.val

/-- Config::has_authority from src/state.rs lines 238-250: reads the
authority bytes as four u64 chunks and returns Some authority when any
chunk is nonzero, None when all are zero. -/
def Config.has_authority (c : Config) : Option Pubkey :=
  if ∃ j : Fin 4, c.authorityChunk j ≠ 0 then some c.authority else none

/-- The slice of account metadata that Config::load inspects: the
declared owner (whether it is this program) and the data length. -/
structure ConfigAccount where
  ownerIsProgram : Bool
  dataLen : Nat
  data : Config
deriving DecidableEq

/-- Config::load from src/state.rs lines 41-51: fails with
InvalidAccountData when the data length is not Config::LEN or the owner
is not this program, otherwise yields the record. -/
def Config.load (acc : ConfigAccount) : Except ProgramError Config :=
  if acc.dataLen ≠ Config.LEN then .error .InvalidAccountData
  else if ¬ acc.ownerIsProgram then .error .InvalidAccountData
  else .ok acc.data

example : Config.LEN = 108 := by decide

/-- Modelled from the spec: the external Curve Engine function
xy_deposit_amounts_from_l of the constant_product_curve crate, whose
source is not under src. Spec section 4.3: deposited amounts are
ceil(L * x / s) and ceil(L * y / s), proportional to existing reserves
and rounded in the favor of the pool; the operation fails on a zero LP
supply and on any overflow of the 64-bit reserve width. -/
def xy_deposit_amounts_from_l (x y l a _precision : Nat) :
    Except CurveError (Nat × Nat) :=
  if l = 0 then .error .ZeroBalance
  else
    let xr := (a * x + (l - 1)) / l
    let yr := (a * y + (l - 1)) / l
    if 2 ^ 64 ≤ xr ∨ 2 ^ 64 ≤ yr then .error .Overflow
    else .ok (xr, yr)

/-- Modelled from the spec: the external Curve Engine function
xy_withdraw_amounts_from_l of the constant_product_curve crate, whose
source is not under src. Spec section 4.3: withdrawn amounts are
floor(L * x / s) and floor(L * y / s), rounded against the withdrawer;
the operation fails on a zero LP supply and on any overflow of the
64-bit reserve width. -/
def xy_withdraw_amounts_from_l (x y l a _precision : Nat) :
    Except CurveError (Nat × Nat) :=
  if l = 0 then .error .ZeroBalance
  else
    let xr := a * x / l
    let yr := a * y / l
    if 2 ^ 64 ≤ xr ∨ 2 ^ 64 ≤ yr then .error .Overflow
    else .ok (xr, yr)

/-- Instruction discriminator of Initialize (src/instructions/initialize.rs). -/
def InitializeIx.DISCRIMINATOR : Nat := 0

/-- Instruction discriminator of Deposit (src/instructions/deposit.rs line 130). -/
def Deposit.DISCRIMINATOR : Nat := 1

/-- Instruction discriminator of Withdraw (src/instructions/withdraw.rs line 129). -/
def Withdraw.DISCRIMINATOR : Nat := 2

/-- Instruction discriminator of Swap (src/instructions/swap.rs line 121). -/
def Swap.DISCRIMINATOR : Nat := 3

/-- Instruction discriminator of UpdateConfig
(src/instructions/update_config.rs line 121). -/
def UpdateConfig.DISCRIMINATOR : Nat := 3

/-- DepositInstructionData from src/instructions/deposit.rs: amount of
LP tokens to claim, slippage ceilings for the two reserve legs, and the
expiration timestamp. Multi-byte fields carry their decoded
little-endian values. -/
structure DepositInstructionData where
  amount : Nat
  max_x : Nat
  max_y : Nat
  expiration : Int
deriving DecidableEq

/-- DepositInstructionData::try_from (src/instructions/deposit.rs lines
81-107) at the field level: the 32-byte payload is given as its four
decoded little-endian fields, and now is the Clock unix timestamp. The
decode rejects a zero amount, zero ceilings, and a stale expiration
with InvalidInstructionData. -/
def DepositInstructionData.try_from (amount max_x max_y : Nat)
    (expiration now : Int) : Except ProgramError DepositInstructionData :=
  if amount = 0 ∨ max_x = 0 ∨ max_y = 0 ∨ expiration < now then
    .error .InvalidInstructionData
  else
    .ok { amount := amount, max_x := max_x, max_y := max_y, expiration := expiration }

/-- The token effects a successful Deposit issues, in program order:
the two user-to-vault transfers, then the LP mint to the user. -/
structure DepositEffects where
  transfer_x : Nat
  transfer_y : Nat
  lp_minted : Nat
deriving DecidableEq

/-- Deposit::process from src/instructions/deposit.rs lines 132-234.
Inputs are the loaded config record, the keys the associated-token
derivation consumes (config account key, token program key), the two
caller-passed vault keys, the LP mint supply and the two vault
balances, and the decoded instruction data. deriveVault stands for
find_program_address over the seeds [config key, token program key,
mint] under the associated-token program. The processor checks the
state is Initialized, checks both vault keys against derivation,
selects the bootstrap amounts (max_x, max_y) when the supply and both
balances are zero and the curve amounts otherwise, enforces the
slippage ceilings, and issues the two transfers and the LP mint of
exactly the instruction amount. -/
def depositProcess (deriveVault : Pubkey → Pubkey → Pubkey → Pubkey)
    (cfg : Config) (configKey tokenProgramKey vaultXKey vaultYKey : Pubkey)
    (lpSupply vaultXAmount vaultYAmount : Nat)
    (d : DepositInstructionData) : Except ProgramError DepositEffects :=
  if cfg.state ≠ AmmState.Initialized then .error .InvalidAccountData
  else if deriveVault configKey tokenProgramKey cfg.mint_x ≠ vaultXKey then
    .error .InvalidAccountData
  else if deriveVault configKey tokenProgramKey cfg.mint_y ≠ vaultYKey then
    .error .InvalidAccountData
  else
    let amounts : Except ProgramError (Nat × Nat) :=
      if lpSupply = 0 ∧ vaultXAmount = 0 ∧ vaultYAmount = 0 then
        .ok (d.max_x, d.max_y)
      else
        match xy_deposit_amounts_from_l vaultXAmount vaultYAmount lpSupply d.amount 6 with
        | .error _ => .error .InvalidArgument
        | .ok a => .ok a
    match amounts with
    | .error e => .error e
    | .ok (x, y) =>
      if ¬ (x ≤ d.max_x ∧ y ≤ d.max_y) then .error .InvalidArgument
      else .ok { transfer_x := x, transfer_y := y, lp_minted := d.amount }

/-- WithdrawInstructionData from src/instructions/withdraw.rs: amount
of LP tokens to burn, slippage floors for the two reserve legs, and the
expiration timestamp. -/
structure WithdrawInstructionData where
  amount : Nat
  min_x : Nat
  min_y : Nat
  expiration : Int
deriving DecidableEq

/-- The token effects a successful Withdraw issues, in program order:
the two vault-to-user transfers, then the LP burn. -/
structure WithdrawEffects where
  transfer_x : Nat
  transfer_y : Nat
  lp_burned : Nat
deriving DecidableEq

/-- Withdraw::process from src/instructions/withdraw.rs lines 131-229,
with the same input conventions as depositProcess. The processor checks
the state is Initialized, checks both vault keys against derivation,
returns the whole reserves when the LP supply equals the burned amount
and the curve amounts otherwise, then errors with InvalidArgument
unless x is at most min_x and y is at most min_y (the comparison
direction the source actually wrote at line 190), and finally issues
the two vault-to-user transfers and the LP burn. -/
def withdrawProcess (deriveVault : Pubkey → Pubkey → Pubkey → Pubkey)
    (cfg : Config) (configKey tokenProgramKey vaultXKey vaultYKey : Pubkey)
    (lpSupply vaultXAmount vaultYAmount : Nat)
    (d : WithdrawInstructionData) : Except ProgramError WithdrawEffects :=
  if cfg.state ≠ AmmState.Initialized then .error .InvalidAccountData
  else if deriveVault configKey tokenProgramKey cfg.mint_x ≠ vaultXKey then
    .error .InvalidAccountData
  else if deriveVault configKey tokenProgramKey cfg.mint_y ≠ vaultYKey then
    .error .InvalidAccountData
  else
    let amounts : Except ProgramError (Nat × Nat) :=
      if lpSupply = d.amount then .ok (vaultXAmount, vaultYAmount)
      else
        match xy_withdraw_amounts_from_l vaultXAmount vaultYAmount lpSupply d.amount 6 with
        | .error _ => .error .InvalidArgument
        | .ok a => .ok a
    match amounts with
    | .error e => .error e
    | .ok (x, y) =>
      if ¬ (x ≤ d.min_x ∧ y ≤ d.min_y) then .error .InvalidArgument
      else .ok { transfer_x := x, transfer_y := y, lp_burned := d.amount }

/-- UpdateConfigAuthorityInstructionData from
src/instructions/update_config.rs lines 46-62: a 32-byte payload read
verbatim as the new authority. try_from rejects any other length. -/
structure UpdateConfigAuthorityInstructionData where
  authority : Pubkey
deriving DecidableEq

/-- UpdateConfigAuthorityInstructionData::try_from at the byte level:
the payload is a list of byte values; exactly 32 bytes are accepted. -/
def UpdateConfigAuthorityInstructionData.try_from (data : List Nat) :
    Except ProgramError UpdateConfigAuthorityInstructionData :=
  if h : data.length = 32 then
    .ok { authority := fun i => Fin.ofNat (data.get ⟨i.val, by omega⟩) }
  else .error .InvalidInstructionData

/-- UpdateConfigFeeInstructionData from
src/instructions/update_config.rs lines 64-79: a 2-byte payload decoded
as a little-endian u16 fee. try_from rejects any other length. -/
structure UpdateConfigFeeInstructionData where
  fee : Nat
deriving DecidableEq

/-- UpdateConfigFeeInstructionData::try_from at the byte level. -/
def UpdateConfigFeeInstructionData.try_from (data : List Nat) :
    Except ProgramError UpdateConfigFeeInstructionData :=
  match data with
  | [b0, b1] => .ok { fee := b0 + 256 * b1 }
  | _ => .error .InvalidInstructionData

/-- UpdateConfigStatusInstructionData from
src/instructions/update_config.rs lines 81-102: a 1-byte payload. -/
structure UpdateConfigStatusInstructionData where
  status : Nat
deriving DecidableEq

/-- UpdateConfigStatusInstructionData::try_from
(src/instructions/update_config.rs lines 85-102): rejects any payload
that is not exactly one byte, and rejects the byte when it equals
AmmState::Uninitialized = 0, equals AmmState::Initialized = 1, or is
greater than AmmState::WithdrawOnly = 3; the remaining values 2 and 3
are accepted. -/
def UpdateConfigStatusInstructionData.try_from (data : List Nat) :
    Except ProgramError UpdateConfigStatusInstructionData :=
  match data with
  | [b] =>
    if b = AmmState.Uninitialized ∨ b = AmmState.Initialized ∨ AmmState.WithdrawOnly < b then
      .error .InvalidInstructionData
    else .ok { status := b }
  | _ => .error .InvalidInstructionData

/-- UpdateConfigAccounts::try_from from
src/instructions/update_config.rs lines 20-44, after the positional
account destructuring: loads the config record, fails with
InvalidAccountData unless has_authority yields exactly the key of the
caller-passed authority account, then fails with InvalidAccountData
unless that account is a signer. -/
def UpdateConfigAccounts.try_from (configAcc : ConfigAccount)
    (authorityKey : Pubkey) (authorityIsSigner : Bool) :
    Except ProgramError Unit :=
  match Config.load configAcc with
  | .error e => .error e
  | .ok config_data =>
    if config_data.has_authority ≠ some authorityKey then .error .InvalidAccountData
    else if ¬ authorityIsSigner then .error .InvalidAccountData
    else .ok ()

/-- UpdateConfig::process from src/instructions/update_config.rs lines
123-152, together with the three process_update_ methods it dispatches
to by payload length (1 byte to status, 2 bytes to fee, 32 bytes to
authority). Each branch runs the corresponding try_from decoder and
then returns Ok without writing any field of the record, so the
returned record equals the input record on every success path. -/
def updateConfigProcess (cfg : Config) (data : List Nat) :
    Except ProgramError Config :=
  if data.length = 1 then
    match UpdateConfigStatusInstructionData.try_from data with
    | .error e => .error e
    | .ok _instruction_data => .ok cfg
  else if data.length = 2 then
    match UpdateConfigFeeInstructionData.try_from data with
    | .error e => .error e
    | .ok _instruction_data => .ok cfg
  else if data.length = 32 then
    match UpdateConfigAuthorityInstructionData.try_from data with
    | .error e => .error e
    | .ok _instruction_data => .ok cfg
  else .error .InvalidInstructionData

/-- A sample initialized config record with a nonzero authority pkA,
fee 100 basis points. -/
def cfgEx : Config :=
  { state := AmmState.Initialized
  , seed := 7
  , authority := pkA
  , mint_x := pkA
  , mint_y := pkB
  , fee := 100
  , config_bump := 255 }

/-- A sample initialized config record whose authority is all-zero. -/
def cfgNoAuth : Config :=
  { state := AmmState.Initialized
  , seed := 7
  , authority := pkZero
  , mint_x := pkA
  , mint_y := pkB
  , fee := 100
  , config_bump := 255 }

example : updateConfigProcess cfgEx [5, 0] = .ok cfgEx := by decide
example : cfgEx.has_authority = some pkA := by decide
example : cfgNoAuth.has_authority = none := by decide

/-- Claim C1: for an UpdateConfig call whose account validation succeeds
and whose payload has a valid length, the source decodes the payload and
returns Ok without writing any field back to the record. Evaluated at
the failing input: account validation for cfgEx with caller pkA signing
succeeds, the 2-byte fee payload [5, 0] decodes to fee 5, yet process
returns the record unchanged with fee still 100. -/
theorem updateConfig_fee_payload_leaves_record_unchanged :
    UpdateConfigAccounts.try_from ⟨true, Config.LEN, cfgEx⟩ pkA true = .ok ()
    ∧ UpdateConfigFeeInstructionData.try_from [5, 0] = .ok { fee := 5 }
    ∧ updateConfigProcess cfgEx [5, 0] = .ok cfgEx
    ∧ cfgEx.fee = 100 := by
  refine ⟨by decide, by decide, by decide, by decide⟩

/-- Claim C2: the withdraw slippage gate at src/instructions/withdraw.rs
line 190 compares the computed amounts against the minimums in the
reversed direction. At reserves (1000, 1000), supply 100 and burn
amount 50 (strictly below the supply), the curve yields (500, 500);
with floors (400, 400), where both computed amounts are at or above the
floors, the processor fails with InvalidArgument, and with floors
(600, 600), where both computed amounts are strictly below the floors,
it proceeds and issues the two transfers. -/
theorem withdraw_slippage_gate_reversed :
    withdrawProcess (fun _ _ _ => pkZero) cfgEx pkZero pkZero pkZero pkZero
      100 1000 1000 { amount := 50, min_x := 400, min_y := 400, expiration := 10 }
      = .error .InvalidArgument
    ∧ withdrawProcess (fun _ _ _ => pkZero) cfgEx pkZero pkZero pkZero pkZero
      100 1000 1000 { amount := 50, min_x := 600, min_y := 600, expiration := 10 }
      = .ok { transfer_x := 500, transfer_y := 500, lp_burned := 50 }
    ∧ 50 * 1000 / 100 = 500 ∧ 400 ≤ 500 ∧ 500 < 600 ∧ 50 < 100 := by
  refine ⟨by decide, by decide, by decide, by decide, by decide, by decide⟩

/-- Claim C3: Config::set_state rejects the declared state value
AmmState::WithdrawOnly = 3 with InvalidAccountData, because its guard
uses greater-or-equal against WithdrawOnly; the 1-byte UpdateConfig
status codec of the same repository accepts value 3, so the setter
contradicts the codec. -/
theorem set_state_rejects_withdraw_only :
    Config.set_state cfgEx AmmState.WithdrawOnly = .error .InvalidAccountData
    ∧ UpdateConfigStatusInstructionData.try_from [AmmState.WithdrawOnly]
        = .ok { status := 3 }
    ∧ Config.set_state cfgEx 0 = .ok { cfgEx with state := 0 }
    ∧ Config.set_state cfgEx 1 = .ok { cfgEx with state := 1 }
    ∧ Config.set_state cfgEx 2 = .ok { cfgEx with state := 2 }
    ∧ Config.set_state cfgEx 4 = .error .InvalidAccountData := by
  refine ⟨by decide, by decide, by decide, by decide, by decide, by decide⟩

/-- Claim C4 counterexample: the 1-byte status payload carrying
AmmState::Initialized = 1 is rejected with InvalidInstructionData,
where the claim says it decodes successfully. -/
theorem updateConfig_status_rejects_initialized :
    UpdateConfigStatusInstructionData.try_from [AmmState.Initialized]
      = .error .InvalidInstructionData := by decide

/-- Claim C4 as amended: a 1-byte status payload decodes successfully
exactly when its value is Disabled = 2 or WithdrawOnly = 3, and is
rejected with InvalidInstructionData when the value is
Uninitialized = 0, Initialized = 1, or greater than 3. -/
theorem updateConfig_status_accepts_exactly_two_and_three (b : Nat) :
    UpdateConfigStatusInstructionData.try_from [b]
      = if b = 2 ∨ b = 3 then .ok { status := b }
        else .error .InvalidInstructionData := by
  unfold UpdateConfigStatusInstructionData.try_from
  unfold AmmState.Uninitialized AmmState.Initialized AmmState.WithdrawOnly
  by_cases h0 : b = 0
  · simp [h0]
  by_cases h1 : b = 1
  · simp [h1]
  by_cases h2 : b = 2
  · simp [h2]
  by_cases h3 : b = 3
  · simp [h3]
  have hb : 3 < b := by omega
  simp [h0, h1, h2, h3, hb, Nat.le_of_lt hb]

/-- Claim C5: Config::set_fee rejects the boundary fee of exactly
10000 basis points with InvalidAccountData, because its guard uses
greater-or-equal against 10000; set_inner propagates the same
rejection, while 9999 is accepted and 10001 rejected as both sides
agree. -/
theorem set_fee_rejects_exactly_ten_thousand :
    Config.set_fee cfgEx 10000 = .error .InvalidAccountData
    ∧ Config.set_inner cfgEx 7 pkA pkA pkB 10000 255 = .error .InvalidAccountData
    ∧ Config.set_fee cfgEx 9999 = .ok { cfgEx with fee := 9999 }
    ∧ Config.set_fee cfgEx 10001 = .error .InvalidAccountData
    ∧ (10000 : Nat) < 2 ^ 16 := by
  refine ⟨by decide, by decide, by decide, by decide, by decide⟩

/-- Claim C6: the declared instruction discriminators are 0 for
Initialize, 1 for Deposit, 2 for Withdraw, 3 for Swap, and 3 — not 4 —
for UpdateConfig, so UpdateConfig collides with Swap instead of being
pairwise distinct. -/
theorem updateConfig_discriminator_collides_with_swap :
    InitializeIx.DISCRIMINATOR = 0
    ∧ Deposit.DISCRIMINATOR = 1
    ∧ Withdraw.DISCRIMINATOR = 2
    ∧ Swap.DISCRIMINATOR = 3
    ∧ UpdateConfig.DISCRIMINATOR = 3
    ∧ UpdateConfig.DISCRIMINATOR = Swap.DISCRIMINATOR := by
  refine ⟨rfl, rfl, rfl, rfl, rfl, rfl⟩

/-- Claim C7 counterexample: a Deposit payload with amount 0,
ceilings (1000, 2000) and an unexpired timestamp is rejected at decode
with InvalidInstructionData, where the claim says it is accepted as a
bootstrap deposit. -/
theorem deposit_zero_amount_rejected_at_decode :
    DepositInstructionData.try_from 0 1000 2000 10 0
      = .error .InvalidInstructionData := by decide

/-- Claim C7 as amended: on a freshly initialized pool (LP supply 0 and
both vault balances 0) a Deposit with any nonzero LP amount, here 1000,
ceilings max_x = 1000 and max_y = 2000 and an unexpired timestamp
decodes successfully and is processed as a bootstrap deposit that
transfers exactly (1000, 2000) into the vaults; bootstrap is detected
from the zero supply and empty vaults, not from a zero amount. -/
theorem deposit_bootstrap_with_nonzero_amount_yields_reserves :
    DepositInstructionData.try_from 1000 1000 2000 10 0
      = .ok { amount := 1000, max_x := 1000, max_y := 2000, expiration := 10 }
    ∧ depositProcess (fun _ _ _ => pkZero) cfgEx pkZero pkZero pkZero pkZero 0 0 0
        { amount := 1000, max_x := 1000, max_y := 2000, expiration := 10 }
      = .ok { transfer_x := 1000, transfer_y := 2000, lp_minted := 1000 } := by
  refine ⟨by decide, by decide⟩

/-- Claim C8: for every deposit processed with LP supply 0 and both
vault balances 0 that succeeds, the amounts transferred into the two
vaults are exactly the caller-supplied ceilings (max_x, max_y). -/
theorem deposit_bootstrap_transfers_equal_ceilings
    (deriveVault : Pubkey → Pubkey → Pubkey → Pubkey) (cfg : Config)
    (configKey tokenProgramKey vaultXKey vaultYKey : Pubkey)
    (d : DepositInstructionData) (eff : DepositEffects)
    (h : depositProcess deriveVault cfg configKey tokenProgramKey vaultXKey vaultYKey
      0 0 0 d = .ok eff) :
    eff.transfer_x = d.max_x ∧ eff.transfer_y = d.max_y := by
  unfold depositProcess at h
  split at h
  · exact Except.noConfusion h
  split at h
  · exact Except.noConfusion h
  split at h
  · exact Except.noConfusion h
  rw [if_pos ⟨rfl, rfl, rfl⟩] at h
  dsimp only at h
  rw [if_neg (by simp)] at h
  injection h with h
  rw [← h]
  exact ⟨rfl, rfl⟩

/-- Witness for claim C8 at a concrete bootstrap input: ceilings
(1000, 2000) are transferred verbatim. -/
theorem deposit_bootstrap_transfers_equal_ceilings_witness :
    ({ transfer_x := 1000, transfer_y := 2000, lp_minted := 1000 } : DepositEffects).transfer_x = 1000
    ∧ ({ transfer_x := 1000, transfer_y := 2000, lp_minted := 1000 } : DepositEffects).transfer_y = 2000 :=
  deposit_bootstrap_transfers_equal_ceilings (fun _ _ _ => pkZero) cfgEx
    pkZero pkZero pkZero pkZero
    { amount := 1000, max_x := 1000, max_y := 2000, expiration := 10 }
    { transfer_x := 1000, transfer_y := 2000, lp_minted := 1000 }
    (by decide)

/-- Claim C10: every successful deposit mints exactly the instruction
amount of LP tokens to the caller, in the bootstrap branch and in the
curve branch alike. -/
theorem deposit_mints_exactly_amount
    (deriveVault : Pubkey → Pubkey → Pubkey → Pubkey) (cfg : Config)
    (configKey tokenProgramKey vaultXKey vaultYKey : Pubkey)
    (lpSupply vaultXAmount vaultYAmount : Nat)
    (d : DepositInstructionData) (eff : DepositEffects)
    (h : depositProcess deriveVault cfg configKey tokenProgramKey vaultXKey vaultYKey
      lpSupply vaultXAmount vaultYAmount d = .ok eff) :
    eff.lp_minted = d.amount := by
  unfold depositProcess at h
  split at h
  · exact Except.noConfusion h
  split at h
  · exact Except.noConfusion h
  split at h
  · exact Except.noConfusion h
  dsimp only at h
  split at h
  · exact Except.noConfusion h
  next x y heq =>
    split at h
    · exact Except.noConfusion h
    injection h with h
    rw [← h]

/-- Witness for claim C10 at a concrete non-bootstrap input: with
reserves (1000, 1000), supply 100 and amount 50, the curve asks for
(500, 500) within the ceilings and the mint is exactly 50. -/
theorem deposit_mints_exactly_amount_witness :
    ({ transfer_x := 500, transfer_y := 500, lp_minted := 50 } : DepositEffects).lp_minted = 50 :=
  deposit_mints_exactly_amount (fun _ _ _ => pkZero) cfgEx
    pkZero pkZero pkZero pkZero 100 1000 1000
    { amount := 50, max_x := 600, max_y := 600, expiration := 10 }
    { transfer_x := 500, transfer_y := 500, lp_minted := 50 }
    (by decide)

/-- Config::load fails only with InvalidAccountData. -/
theorem Config.load_error_eq (acc : ConfigAccount) (e : ProgramError)
    (h : Config.load acc = .error e) : e = .InvalidAccountData := by
  unfold Config.load at h
  split at h
  · injection h with h
    exact h.symm
  split at h
  · injection h with h
    exact h.symm
  exact Except.noConfusion h

/-- Config::load yields exactly the account data on success. -/
theorem Config.load_ok_eq (acc : ConfigAccount) (c : Config)
    (h : Config.load acc = .ok c) : c = acc.data := by
  unfold Config.load at h
  split at h
  · exact Except.noConfusion h
  split at h
  · exact Except.noConfusion h
  injection h with h
  exact h.symm

/-- When every authority byte is zero, every u64 chunk is zero and
has_authority returns None. -/
theorem Config.has_authority_eq_none (c : Config)
    (h : ∀ i, c.authority i = 0) : c.has_authority = none := by
  have hz : ∀ j : Fin 4, c.authorityChunk j = 0 := by
    intro j
    unfold Config.authorityChunk
    apply Finset.sum_eq_zero
    intro k _
    rw [h]
    simp
  unfold Config.has_authority
  rw [if_neg]
  push_neg
  exact hz

/-- has_authority yields Some k only for k equal to the stored
authority bytes. -/
theorem Config.has_authority_some_eq (c : Config) (k : Pubkey)
    (h : c.has_authority = some k) : k = c.authority := by
  unfold Config.has_authority at h
  split at h
  · injection h with h
    exact h.symm
  · exact Option.noConfusion h

/-- Claim C9: account validation of UpdateConfig. For a record whose
stored authority is all-zero bytes the validation fails with
InvalidAccountData regardless of the caller key and signer flag, and
any successful validation forces the caller key to equal the stored
authority and the caller to be a signer. -/
theorem updateConfig_authority_gating (acc : ConfigAccount)
    (callerKey : Pubkey) (isSigner : Bool) :
    ((∀ i, acc.data.authority i = 0) →
      UpdateConfigAccounts.try_from acc callerKey isSigner = .error .InvalidAccountData)
    ∧ (UpdateConfigAccounts.try_from acc callerKey isSigner = .ok () →
      callerKey = acc.data.authority ∧ isSigner = true) := by
  constructor
  · intro hzero
    unfold UpdateConfigAccounts.try_from
    cases hload : Config.load acc with
    | error e =>
      rw [Config.load_error_eq acc e hload]
    | ok cd =>
      rw [Config.load_ok_eq acc cd hload]
      dsimp only
      rw [Config.has_authority_eq_none acc.data hzero]
      rw [if_pos (by simp)]
  · intro hok
    unfold UpdateConfigAccounts.try_from at hok
    cases hload : Config.load acc with
    | error e =>
      rw [hload] at hok
      exact Except.noConfusion hok
    | ok cd =>
      rw [hload] at hok
      dsimp only at hok
      by_cases hauth : cd.has_authority ≠ some callerKey
      · rw [if_pos hauth] at hok
        exact Except.noConfusion hok
      · rw [if_neg hauth] at hok
        push_neg at hauth
        by_cases hs : isSigner = true
        · refine ⟨?_, hs⟩
          have hk := Config.has_authority_some_eq cd callerKey hauth
          rw [Config.load_ok_eq acc cd hload] at hk
          exact hk
        · rw [if_pos hs] at hok
          exact Except.noConfusion hok

/-- Witness for claim C9: with the all-zero-authority record cfgNoAuth
no caller passes validation, and with cfgEx the caller pkA signing does
pass, so the success case of the gate is satisfiable. -/
theorem updateConfig_authority_gating_witness :
    UpdateConfigAccounts.try_from ⟨true, Config.LEN, cfgNoAuth⟩ pkB true
        = .error .InvalidAccountData
    ∧ (pkA = (⟨true, Config.LEN, cfgEx⟩ : ConfigAccount).data.authority ∧ true = true) := by
  constructor
  · exact (updateConfig_authority_gating ⟨true, Config.LEN, cfgNoAuth⟩ pkB true).1
      (fun i => rfl)
  · exact (updateConfig_authority_gating ⟨true, Config.LEN, cfgEx⟩ pkA true).2
      (by decide)
